import Mathlib

/-!
Shallow embedding of `src/classes/SparseLabels/lib/fast_assign_true.c`, a MEX
function converting a cell array of uint64 index vectors into a cell array of
logical masks of a shared length.

Modelling conventions:
- MATLAB `mxArray` values are the inductive `MxArray`; doubles are `Rat`.
- `mexErrMsgIdAndTxt` aborts the call: the call's outcome is `MexResult.err`
  carrying the identifier and message, and no output is produced.
- Two operations in the source are undefined behavior in C and are modelled by
  the outcome `MexResult.ub`:
  * the conversion `size_t size = mxGetScalar(in_size);` when the truncated
    double is not representable in `size_t` (negative below -1, or ≥ 2^64);
  * the unchecked write `logical_inds_ptr[num_inds_ptr[j]] = true;` when the
    index is outside the allocated mask of `size` logicals.
-/

namespace FastAssignTrue

/-- MATLAB class identifiers relevant to this MEX file (`mxGetClassID`). -/
inductive ClassID where
  | cellClass
  | doubleClass
  | uint64Class
  | logicalClass
  | otherClass
deriving DecidableEq

/-- A MATLAB array, restricted to the classes the MEX file distinguishes.
`double` elements are modelled as rationals; `uint64` elements as naturals. -/
inductive MxArray where
  | cell (elems : List MxArray)
  | double (vals : List Rat)
  | uint64 (vals : List Nat)
  | logical (vals : List Bool)
  | other

/-- `mxGetClassID`. -/
def mxGetClassID : MxArray → ClassID
  | .cell _ => .cellClass
  | .double _ => .doubleClass
  | .uint64 _ => .uint64Class
  | .logical _ => .logicalClass
  | .other => .otherClass

/-- `mxGetNumberOfElements`. -/
def mxGetNumberOfElements : MxArray → Nat
  | .cell es => es.length
  | .double vs => vs.length
  | .uint64 vs => vs.length
  | .logical vs => vs.length
  | .other => 0

/-- `mxGetScalar`: the first element of a double array (only consulted after
the source has checked the array is a scalar double). -/
def mxGetScalar : MxArray → Rat
  | .double (q :: _) => q
  | _ => 0

/-- The elements of a cell array (only consulted after the class check). -/
def cellElems : MxArray → List MxArray
  | .cell es => es
  | _ => []

/-- Outcome of one MEX call: normal return, error raised via
`mexErrMsgIdAndTxt` (identifier, message), or undefined behavior. -/
inductive MexResult (α : Type) where
  | ok (val : α)
  | err (ident msg : String)
  | ub
deriving DecidableEq

/-- Whether an outcome is an error raised via `mexErrMsgIdAndTxt`. -/
def MexResult.isErr {α : Type} : MexResult α → Bool
  | .err _ _ => true
  | _ => false

/-- Whether an outcome is a normal return. -/
def MexResult.isOk {α : Type} : MexResult α → Bool
  | .ok _ => true
  | _ => false

/-- Truncation toward zero of a double, as the C cast to an integer type. -/
def truncTowardZero (q : Rat) : Int :=
  if 0 ≤ q then q.floor else -((-q).floor)

/-- The C conversion `size_t size = mxGetScalar(in_size);` (line 40): the
double is truncated toward zero; if the truncated value is not representable
in the 64-bit unsigned `size_t`, the conversion is undefined behavior. -/
def doubleToSizeT (q : Rat) : Option Nat :=
  if 0 ≤ truncTowardZero q ∧ truncTowardZero q < (2 : Int) ^ 64 then
    some (truncTowardZero q).toNat
  else none

/-- The inner loop (lines 65-68): `logical_inds_ptr[num_inds_ptr[j]] = true;`
over a mask buffer. A write at an index outside the buffer is an out-of-bounds
write, i.e. undefined behavior, modelled as `none`. -/
def assignTrueLoop : List Bool → List Nat → Option (List Bool)
  | m, [] => some m
  | m, v :: rest =>
      if v < m.length then assignTrueLoop (m.set v true) rest else none

/-- One iteration's mask construction (lines 59-68): allocate
`mxCreateLogicalMatrix(size, 1)` (all `false`) and run the assignment loop. -/
def buildMask (size : Nat) (indices : List Nat) : Option (List Bool) :=
  assignTrueLoop (List.replicate size false) indices

/-- The outer loop over the cell array (lines 44-71): for each cell, check its
class is uint64 (otherwise all previously built masks are destroyed and the
call errors), then build its mask.  Output is produced only when every cell
succeeds. -/
def convertCells (size : Nat) : List MxArray → MexResult (List MxArray)
  | [] => .ok []
  | a :: rest =>
      match a with
      | .uint64 vals =>
          match buildMask size vals with
          | some mask =>
              match convertCells size rest with
              | .ok masks => .ok (.logical mask :: masks)
              | .err i m => .err i m
              | .ub => .ub
          | none => .ub
      | _ => .err "fast_assign_true:main" "Indices must be uint64."

/-- `mexFunction` of `fast_assign_true.c`.  `nlhs` is the requested output
count; `prhs` the input arrays (so `nrhs = prhs.length`).  The checks appear
in source order: arity of inputs, arity of outputs, indices cell class, size
double class, size scalar, then the size conversion and the conversion loop.
On success the single output is the cell array of logical masks. -/
def mexFunction (nlhs : Nat) (prhs : List MxArray) : MexResult (List MxArray) :=
  match prhs with
  | [in_indices, in_size] =>
      if nlhs ≠ 1 then
        .err "fast_assign_true:main" "Wrong number of outputs."
      else if mxGetClassID in_indices ≠ ClassID.cellClass then
        .err "fast_assign_true:main" "Indices must be cell array."
      else if mxGetClassID in_size ≠ ClassID.doubleClass then
        .err "fast_assign_true:main" "Size must be double."
      else if mxGetNumberOfElements in_size ≠ 1 then
        .err "fast_assign_true:main" "Size must be scalar."
      else
        match doubleToSizeT (mxGetScalar in_size) with
        | none => .ub
        | some size =>
            match convertCells size (cellElems in_indices) with
            | .ok masks => .ok [.cell masks]
            | .err i m => .err i m
            | .ub => .ub
  | _ => .err "fast_assign_true:main" "Wrong number of inputs."

/-- The mask a length-`size` conversion of `indices` should produce:
`true` exactly at the positions present in `indices`. -/
def maskOf (size : Nat) (indices : List Nat) : List Bool :=
  (List.range size).map (fun p => decide (p ∈ indices))

/-- Duplicate every element of a list in place. -/
def dupEach : List Nat → List Nat
  | [] => []
  | v :: rest => v :: v :: dupEach rest

/-- Extract the list of masks from a successful call outcome. -/
def outMasks : MexResult (List MxArray) → Option (List (List Bool))
  | .ok [.cell masks] =>
      masks.foldrM (fun a acc =>
        match a with
        | .logical m => some (m :: acc)
        | _ => none) []
  | _ => none

/-! ### Characterization lemmas -/

theorem assignTrueLoop_some (s : List Nat) : ∀ (m : List Bool), (∀ v ∈ s, v < m.length) →
    ∃ m2, assignTrueLoop m s = some m2 ∧ m2.length = m.length ∧
      ∀ p, p < m.length → m2[p]? = some (m.getD p false || decide (p ∈ s)) := by
  induction s with
  | nil =>
      intro m _
      refine ⟨m, rfl, rfl, ?_⟩
      intro p hp
      simp [List.getD_eq_getElem?_getD, List.getElem?_eq_getElem hp]
  | cons v rest ih =>
      intro m h
      have hv : v < m.length := h v (List.mem_cons_self v rest)
      have hrest : ∀ w ∈ rest, w < (m.set v true).length := by
        intro w hw
        simpa using h w (List.mem_cons_of_mem v hw)
      obtain ⟨m2, hrun, hlen, hget⟩ := ih (m.set v true) hrest
      refine ⟨m2, ?_, by simpa using hlen, ?_⟩
      · simp [assignTrueLoop, hv, hrun]
      · intro p hp
        have hp2 : p < (m.set v true).length := by simpa using hp
        rw [hget p hp2]
        by_cases hvp : v = p
        · subst hvp
          simp [List.getD_eq_getElem?_getD, List.getElem?_set, hv]
        · have hpv : ¬(p = v) := fun e => hvp e.symm
          simp [List.getD_eq_getElem?_getD, List.getElem?_set, hvp, List.mem_cons, hpv]

theorem assignTrueLoop_none (s : List Nat) : ∀ (m : List Bool), (∃ v ∈ s, m.length ≤ v) →
    assignTrueLoop m s = none := by
  induction s with
  | nil =>
      intro m h
      obtain ⟨v, hv, _⟩ := h
      exact absurd hv (List.not_mem_nil v)
  | cons v rest ih =>
      intro m h
      by_cases hlt : v < m.length
      · obtain ⟨w, hw, hwlen⟩ := h
        have hwrest : w ∈ rest := by
          rcases List.mem_cons.mp hw with he | hr
          · exact absurd hlt (by simpa [he] using Nat.not_lt.mpr hwlen)
          · exact hr
        have : assignTrueLoop (m.set v true) rest = none :=
          ih (m.set v true) ⟨w, hwrest, by simpa using hwlen⟩
        simp [assignTrueLoop, hlt, this]
      · simp [assignTrueLoop, hlt]

theorem maskOf_length (size : Nat) (s : List Nat) : (maskOf size s).length = size := by
  simp [maskOf]

theorem maskOf_getElem? (size : Nat) (s : List Nat) (p : Nat) (hp : p < size) :
    (maskOf size s)[p]? = some (decide (p ∈ s)) := by
  simp [maskOf, List.getElem?_map, List.getElem?_range, hp]

theorem buildMask_eq (size : Nat) (s : List Nat) (h : ∀ v ∈ s, v < size) :
    buildMask size s = some (maskOf size s) := by
  obtain ⟨m2, hrun, hlen, hget⟩ :=
    assignTrueLoop_some s (List.replicate size false) (by simpa using h)
  have hm2 : m2 = maskOf size s := by
    apply List.ext_getElem?
    intro p
    by_cases hp : p < size
    · rw [hget p (by simpa using hp), maskOf_getElem? size s p hp]
      simp [List.getD_eq_getElem?_getD, List.getElem?_replicate, hp]
    · rw [List.getElem?_eq_none, List.getElem?_eq_none]
      · simpa [maskOf_length] using Nat.le_of_not_lt hp
      · simpa [hlen] using Nat.le_of_not_lt hp
  rw [buildMask, hrun, hm2]

theorem buildMask_none (size : Nat) (s : List Nat) (h : ∃ v ∈ s, size ≤ v) :
    buildMask size s = none := by
  obtain ⟨v, hv, hle⟩ := h
  exact assignTrueLoop_none s (List.replicate size false) ⟨v, hv, by simpa using hle⟩

theorem convertCells_ok (size : Nat) (batch : List (List Nat))
    (h : ∀ s ∈ batch, ∀ v ∈ s, v < size) :
    convertCells size (batch.map MxArray.uint64)
      = .ok (batch.map (fun s => MxArray.logical (maskOf size s))) := by
  induction batch with
  | nil => rfl
  | cons s rest ih =>
      have hs : ∀ v ∈ s, v < size := h s (List.mem_cons_self s rest)
      have hrest : ∀ t ∈ rest, ∀ v ∈ t, v < size :=
        fun t ht => h t (List.mem_cons_of_mem s ht)
      simp [convertCells, buildMask_eq size s hs, ih hrest]

theorem doubleToSizeT_natCast (len : Nat) (h : len < 2 ^ 64) :
    doubleToSizeT (len : Rat) = some len := by
  have hfloor : ((len : Rat)).floor = (len : Int) := by
    simp [Rat.floor, Rat.den_natCast, Rat.num_natCast]
  have htrunc : truncTowardZero (len : Rat) = (len : Int) := by
    simp [truncTowardZero, hfloor, Nat.cast_nonneg]
  have hbound : (0 : Int) ≤ (len : Int) ∧ (len : Int) < (2 : Int) ^ 64 := by
    constructor
    · exact Int.ofNat_nonneg len
    · exact_mod_cast h
  simp only [doubleToSizeT, htrunc]
  rw [if_pos hbound]
  simp

theorem mexFunction_ok (len : Nat) (hlen : len < 2 ^ 64) (batch : List (List Nat))
    (h : ∀ s ∈ batch, ∀ v ∈ s, v < len) :
    mexFunction 1 [.cell (batch.map MxArray.uint64), .double [(len : Rat)]]
      = .ok [.cell (batch.map (fun s => MxArray.logical (maskOf len s)))] := by
  simp [mexFunction, mxGetClassID, mxGetNumberOfElements, mxGetScalar, cellElems,
    doubleToSizeT_natCast len hlen, convertCells_ok len batch h]

theorem outMasks_ok (ms : List (List Bool)) :
    outMasks (.ok [.cell (ms.map MxArray.logical)]) = some ms := by
  induction ms with
  | nil => rfl
  | cons m rest ih =>
      simp only [outMasks, List.map_cons, List.foldrM_cons] at ih ⊢
      rw [ih]
      rfl

theorem convertCells_err (size : Nat) : ∀ (cells : List MxArray) (i m : String),
    convertCells size cells = .err i m →
    i = "fast_assign_true:main" ∧ m = "Indices must be uint64." := by
  intro cells
  induction cells with
  | nil =>
      intro i m h
      simp [convertCells] at h
  | cons a rest ih =>
      intro i m h
      cases a with
      | uint64 vals =>
          simp only [convertCells] at h
          cases hb : buildMask size vals with
          | none => rw [hb] at h; simp at h
          | some mask =>
              rw [hb] at h
              cases hr : convertCells size rest with
              | ok ms => rw [hr] at h; simp at h
              | err i2 m2 =>
                  rw [hr] at h
                  obtain ⟨hi, hm⟩ := by simpa using h
                  obtain ⟨hi2, hm2⟩ := ih i2 m2 hr
                  exact ⟨hi ▸ hi2, hm ▸ hm2⟩
              | ub => rw [hr] at h; simp at h
      | cell es =>
          obtain ⟨hi, hm⟩ := by simpa [convertCells] using h
          exact ⟨hi.symm, hm.symm⟩
      | double vs =>
          obtain ⟨hi, hm⟩ := by simpa [convertCells] using h
          exact ⟨hi.symm, hm.symm⟩
      | logical vs =>
          obtain ⟨hi, hm⟩ := by simpa [convertCells] using h
          exact ⟨hi.symm, hm.symm⟩
      | other =>
          obtain ⟨hi, hm⟩ := by simpa [convertCells] using h
          exact ⟨hi.symm, hm.symm⟩

theorem convertCells_first_bad (size : Nat) (pre : List (List Nat)) (bad : MxArray)
    (rest : List MxArray) (hpre : ∀ s ∈ pre, ∀ v ∈ s, v < size)
    (hbad : mxGetClassID bad ≠ ClassID.uint64Class) :
    convertCells size (pre.map MxArray.uint64 ++ bad :: rest)
      = .err "fast_assign_true:main" "Indices must be uint64." := by
  induction pre with
  | nil =>
      cases bad with
      | uint64 vals => exact absurd rfl hbad
      | cell es => rfl
      | double vs => rfl
      | logical vs => rfl
      | other => rfl
  | cons s pre2 ih =>
      have hs : ∀ v ∈ s, v < size := hpre s (List.mem_cons_self s pre2)
      have hpre2 : ∀ t ∈ pre2, ∀ v ∈ t, v < size :=
        fun t ht => hpre t (List.mem_cons_of_mem s ht)
      simp [convertCells, buildMask_eq size s hs, ih hpre2]

theorem convertCells_first_oob (size : Nat) (pre : List (List Nat)) (s : List Nat)
    (rest : List MxArray) (hpre : ∀ t ∈ pre, ∀ v ∈ t, v < size)
    (hs : ∃ v ∈ s, size ≤ v) :
    convertCells size (pre.map MxArray.uint64 ++ MxArray.uint64 s :: rest) = .ub := by
  induction pre with
  | nil => simp [convertCells, buildMask_none size s hs]
  | cons t pre2 ih =>
      have ht : ∀ v ∈ t, v < size := hpre t (List.mem_cons_self t pre2)
      have hpre2 : ∀ u ∈ pre2, ∀ v ∈ u, v < size :=
        fun u hu => hpre u (List.mem_cons_of_mem t hu)
      simp [convertCells, buildMask_eq size t ht, ih hpre2]

theorem mexFunction_size_not_scalar (cells : List MxArray) (vals : List Rat)
    (h : vals.length ≠ 1) :
    mexFunction 1 [.cell cells, .double vals]
      = .err "fast_assign_true:main" "Size must be scalar." := by
  simp [mexFunction, mxGetClassID, mxGetNumberOfElements, h]

theorem mem_dupEach (p : Nat) (s : List Nat) : p ∈ dupEach s ↔ p ∈ s := by
  induction s with
  | nil => simp [dupEach]
  | cons v rest ih => simp [dupEach, List.mem_cons, ih]

theorem maskOf_dupEach (size : Nat) (s : List Nat) :
    maskOf size (dupEach s) = maskOf size s := by
  unfold maskOf
  have : (fun p => decide (p ∈ dupEach s)) = fun p => decide (p ∈ s) :=
    funext fun p => by simp [mem_dupEach]
  rw [this]

theorem maskOf_perm (size : Nat) (s t : List Nat) (h : s.Perm t) :
    maskOf size s = maskOf size t := by
  unfold maskOf
  have : (fun p => decide (p ∈ s)) = fun p => decide (p ∈ t) :=
    funext fun p => by simp [h.mem_iff]
  rw [this]

theorem getD_ofFn {α : Type} {n : Nat} (g : Fin n → α) (i : Fin n) (d : α) :
    (List.ofFn g).getD (i : Nat) d = g i := by
  have hi : (i : Nat) < (List.ofFn g).length := by simp [List.length_ofFn, i.isLt]
  rw [List.getD_eq_getElem?_getD, List.getElem?_eq_getElem hi]
  simp [List.getElem_ofFn]

theorem maskOf_getD (size : Nat) (s : List Nat) (p : Nat) (hp : p < size) :
    (maskOf size s).getD p false = decide (p ∈ s) := by
  rw [List.getD_eq_getElem?_getD, maskOf_getElem? size s p hp]
  rfl

theorem getD_map_maskOf (len : Nat) (batch : List (List Nat)) (i : Nat)
    (hi : i < batch.length) :
    (batch.map (maskOf len)).getD i [] = maskOf len (batch.getD i []) := by
  rw [List.getD_eq_getElem?_getD, List.getElem?_map, List.getElem?_eq_getElem hi,
    List.getD_eq_getElem?_getD, List.getElem?_eq_getElem hi]
  rfl

theorem outMasks_mexFunction_ok (len : Nat) (hlen : len < 2 ^ 64)
    (batch : List (List Nat)) (h : ∀ s ∈ batch, ∀ v ∈ s, v < len) :
    outMasks (mexFunction 1 [.cell (batch.map MxArray.uint64), .double [(len : Rat)]])
      = some (batch.map (maskOf len)) := by
  rw [mexFunction_ok len hlen batch h]
  have e : batch.map (fun s => MxArray.logical (maskOf len s))
      = (batch.map (maskOf len)).map MxArray.logical := by
    rw [List.map_map]
    rfl
  rw [e, outMasks_ok]

/-! ### Claims -/

/-- C1: for every batch of uint64 index sets whose values all lie in
`[0, length)` (with `length` representable in `size_t`), the call succeeds
and returns one mask per index set, with `result[i][p] = true` iff `p`
appears in `indexBatch[i]` and `false` otherwise. -/
theorem claim_C1_mask_correctness (len : Nat) (hlen : len < 2 ^ 64)
    (batch : List (List Nat)) (hv : ∀ s ∈ batch, ∀ v ∈ s, v < len) :
    ∃ masks : List (List Bool),
      mexFunction 1 [.cell (batch.map MxArray.uint64), .double [(len : Rat)]]
        = .ok [.cell (masks.map MxArray.logical)]
      ∧ masks.length = batch.length
      ∧ ∀ i, i < batch.length → ∀ p, p < len →
          ((masks.getD i []).getD p false = true ↔ p ∈ batch.getD i []) := by
  refine ⟨batch.map (maskOf len), ?_, by simp, ?_⟩
  · rw [mexFunction_ok len hlen batch hv, List.map_map]
    rfl
  · intro i hi p hp
    rw [getD_map_maskOf len batch i hi, maskOf_getD len _ p hp]
    simp

/-- C1 witness: the spec's concrete scenario `[[0,2],[1]]` with length 3. -/
theorem claim_C1_mask_correctness_witness :
    (3 : Nat) < 2 ^ 64 ∧ (∀ s ∈ [[0, 2], [1]], ∀ v ∈ s, v < 3) ∧
    ∃ masks : List (List Bool),
      mexFunction 1 [.cell (([[0, 2], [1]] : List (List Nat)).map MxArray.uint64),
        .double [((3 : Nat) : Rat)]] = .ok [.cell (masks.map MxArray.logical)]
      ∧ masks.length = ([[0, 2], [1]] : List (List Nat)).length
      ∧ ∀ i, i < ([[0, 2], [1]] : List (List Nat)).length → ∀ p, p < 3 →
          ((masks.getD i []).getD p false = true
            ↔ p ∈ ([[0, 2], [1]] : List (List Nat)).getD i []) :=
  ⟨by norm_num, by decide,
    claim_C1_mask_correctness 3 (by norm_num) [[0, 2], [1]] (by decide)⟩

/-- C2 counterexample: the spec's own scenario `[[4]]` with length 3 does not
fail with any error: the code performs no range check, and the out-of-range
write is an out-of-bounds store into the length-3 buffer (undefined
behavior). -/
theorem claim_C2_counterexample_no_range_error :
    mexFunction 1 [.cell [.uint64 [4]], .double [((3 : Nat) : Rat)]] = .ub
    ∧ MexResult.isErr (mexFunction 1 [.cell [.uint64 [4]], .double [((3 : Nat) : Rat)]])
        = false :=
  ⟨rfl, rfl⟩

/-- C2 amended: the code performs no range validation.  For every batch whose
first offending index set contains a value `≥ length` (earlier sets being
in-range uint64 sets), the call performs an out-of-bounds write (undefined
behavior); no RangeError is raised and no output is produced through a normal
return. -/
theorem claim_C2_amended_oob_write_is_ub (len : Nat) (hlen : len < 2 ^ 64)
    (pre : List (List Nat)) (hpre : ∀ t ∈ pre, ∀ v ∈ t, v < len)
    (s : List Nat) (hs : ∃ v ∈ s, len ≤ v) (rest : List MxArray) :
    mexFunction 1 [.cell (pre.map MxArray.uint64 ++ MxArray.uint64 s :: rest),
      .double [(len : Rat)]] = .ub := by
  simp [mexFunction, mxGetClassID, mxGetNumberOfElements, mxGetScalar, cellElems,
    doubleToSizeT_natCast len hlen, convertCells_first_oob len pre s rest hpre hs]

/-- C2 amended witness: `[[4]]` with length 3. -/
theorem claim_C2_amended_witness :
    (∃ v ∈ [4], 3 ≤ v) ∧
    mexFunction 1 [.cell (([] : List (List Nat)).map MxArray.uint64
      ++ MxArray.uint64 [4] :: []), .double [((3 : Nat) : Rat)]] = .ub :=
  ⟨⟨4, by decide, by decide⟩,
    claim_C2_amended_oob_write_is_ub 3 (by norm_num) [] (by simp) [4]
      ⟨4, by decide, by decide⟩ []⟩

/-- C3: for every valid input (batch of in-range uint64 sets, length
representable in `size_t`), the result has exactly one mask per index set and
every mask has length `length`. -/
theorem claim_C3_shape (len : Nat) (hlen : len < 2 ^ 64)
    (batch : List (List Nat)) (hv : ∀ s ∈ batch, ∀ v ∈ s, v < len) :
    ∃ masks : List (List Bool),
      outMasks (mexFunction 1 [.cell (batch.map MxArray.uint64), .double [(len : Rat)]])
        = some masks
      ∧ masks.length = batch.length
      ∧ ∀ mk ∈ masks, mk.length = len := by
  refine ⟨batch.map (maskOf len), outMasks_mexFunction_ok len hlen batch hv, by simp, ?_⟩
  intro mk hmk
  obtain ⟨s, _, rfl⟩ := List.mem_map.mp hmk
  exact maskOf_length len s

/-- C3 witness: the spec's scenario `[[]]` with length 5. -/
theorem claim_C3_shape_witness :
    (5 : Nat) < 2 ^ 64 ∧ (∀ s ∈ [([] : List Nat)], ∀ v ∈ s, v < 5) ∧
    ∃ masks : List (List Bool),
      outMasks (mexFunction 1 [.cell (([[]] : List (List Nat)).map MxArray.uint64),
        .double [((5 : Nat) : Rat)]]) = some masks
      ∧ masks.length = ([[]] : List (List Nat)).length
      ∧ ∀ mk ∈ masks, mk.length = 5 :=
  ⟨by norm_num, by decide, claim_C3_shape 5 (by norm_num) [[]] (by decide)⟩

/-- C4: if index set `k` is the first whose array is not of class uint64 (the
earlier sets being in-range uint64 sets), the call fails with the
element-type error, and no mask batch is returned: the outcome is the error,
and extracting output masks from it yields nothing. -/
theorem claim_C4_type_error_atomic (len : Nat) (hlen : len < 2 ^ 64)
    (pre : List (List Nat)) (hpre : ∀ s ∈ pre, ∀ v ∈ s, v < len)
    (bad : MxArray) (hbad : mxGetClassID bad ≠ ClassID.uint64Class)
    (rest : List MxArray) :
    mexFunction 1 [.cell (pre.map MxArray.uint64 ++ bad :: rest), .double [(len : Rat)]]
      = .err "fast_assign_true:main" "Indices must be uint64."
    ∧ outMasks (mexFunction 1 [.cell (pre.map MxArray.uint64 ++ bad :: rest),
        .double [(len : Rat)]]) = none := by
  have h1 : mexFunction 1 [.cell (pre.map MxArray.uint64 ++ bad :: rest),
      .double [(len : Rat)]] = .err "fast_assign_true:main" "Indices must be uint64." := by
    simp [mexFunction, mxGetClassID, mxGetNumberOfElements, mxGetScalar, cellElems,
      doubleToSizeT_natCast len hlen, convertCells_first_bad len pre bad rest hpre hbad]
  exact ⟨h1, by rw [h1]; rfl⟩

/-- C4 witness: a valid first set `[0]` followed by a double array, length 1. -/
theorem claim_C4_type_error_atomic_witness :
    mxGetClassID (MxArray.double []) ≠ ClassID.uint64Class ∧
    (mexFunction 1 [.cell (([[0]] : List (List Nat)).map MxArray.uint64
        ++ MxArray.double [] :: []), .double [((1 : Nat) : Rat)]]
      = .err "fast_assign_true:main" "Indices must be uint64."
    ∧ outMasks (mexFunction 1 [.cell (([[0]] : List (List Nat)).map MxArray.uint64
        ++ MxArray.double [] :: []), .double [((1 : Nat) : Rat)]]) = none) :=
  ⟨by simp [mxGetClassID],
    claim_C4_type_error_atomic 1 (by norm_num) [[0]] (by decide) (MxArray.double [])
      (by simp [mxGetClassID]) []⟩

/-- C5 counterexample: a negative scalar length raises no error at all.  With
an empty batch and length `-1`, the call does not fail with any
`mexErrMsgIdAndTxt` error: the unchecked conversion of the negative double to
`size_t` is undefined behavior, not a detected ShapeError. -/
theorem claim_C5_counterexample_negative_length :
    mexFunction 1 [.cell [], .double [-1]] = .ub
    ∧ MexResult.isErr (mexFunction 1 [.cell [], .double [-1]]) = false :=
  ⟨rfl, rfl⟩

/-- C5 amended: the Validator confirms that the length is provided as exactly
one scalar (of double class); a non-scalar length is rejected with the
ShapeError message before any mask is built, and no output is produced.
Negativity is not validated: a negative length reaches the unchecked
double-to-`size_t` conversion instead of failing validation. -/
theorem claim_C5_amended_scalar_check (cells : List MxArray) (vals : List Rat)
    (h : vals.length ≠ 1) :
    mexFunction 1 [.cell cells, .double vals]
      = .err "fast_assign_true:main" "Size must be scalar."
    ∧ outMasks (mexFunction 1 [.cell cells, .double vals]) = none := by
  have h1 := mexFunction_size_not_scalar cells vals h
  exact ⟨h1, by rw [h1]; rfl⟩

/-- C5 amended witness: a two-element length vector. -/
theorem claim_C5_amended_witness :
    ([1, 2] : List Rat).length ≠ 1 ∧
    (mexFunction 1 [.cell [], .double [1, 2]]
      = .err "fast_assign_true:main" "Size must be scalar."
    ∧ outMasks (mexFunction 1 [.cell [], .double [1, 2]]) = none) :=
  ⟨by decide, claim_C5_amended_scalar_check [] [1, 2] (by decide)⟩

/-- C6 counterexample: two calls that fail at different index-set positions,
with different offending arrays, surface the identical error: the error
carries no information about which index set or value triggered it.  (The
first call fails at set 0, a double array; the second at set 1, a logical
array.) -/
theorem claim_C6_counterexample_same_error :
    mexFunction 1 [.cell [.double [1]], .double [((5 : Nat) : Rat)]]
      = mexFunction 1 [.cell [.uint64 [0], .logical [true]], .double [((5 : Nat) : Rat)]]
    ∧ MexResult.isErr (mexFunction 1 [.cell [.double [1]], .double [((5 : Nat) : Rat)]])
        = true :=
  ⟨rfl, rfl⟩

/-- C6 amended: every failing call raises its error through
`mexErrMsgIdAndTxt` with the single identifier `fast_assign_true:main` and
one of five fixed messages naming the violated check; the message never
identifies the index set or value, and no range error exists. -/
theorem claim_C6_amended_error_kinds (nlhs : Nat) (prhs : List MxArray)
    (i m : String) (h : mexFunction nlhs prhs = .err i m) :
    i = "fast_assign_true:main"
    ∧ (m = "Wrong number of inputs." ∨ m = "Wrong number of outputs."
       ∨ m = "Indices must be cell array." ∨ m = "Size must be double."
       ∨ m = "Size must be scalar." ∨ m = "Indices must be uint64.") := by
  cases prhs with
  | nil =>
      obtain ⟨hi, hm⟩ := by simpa [mexFunction] using h
      exact ⟨hi.symm, Or.inl hm.symm⟩
  | cons a t =>
      cases t with
      | nil =>
          obtain ⟨hi, hm⟩ := by simpa [mexFunction] using h
          exact ⟨hi.symm, Or.inl hm.symm⟩
      | cons b t2 =>
          cases t2 with
          | cons c t3 =>
              obtain ⟨hi, hm⟩ := by simpa [mexFunction] using h
              exact ⟨hi.symm, Or.inl hm.symm⟩
          | nil =>
              simp only [mexFunction] at h
              split_ifs at h with h1 h2 h3 h4
              · obtain ⟨hi, hm⟩ := by simpa using h
                exact ⟨hi.symm, Or.inr (Or.inl hm.symm)⟩
              · obtain ⟨hi, hm⟩ := by simpa using h
                exact ⟨hi.symm, Or.inr (Or.inr (Or.inl hm.symm))⟩
              · obtain ⟨hi, hm⟩ := by simpa using h
                exact ⟨hi.symm, Or.inr (Or.inr (Or.inr (Or.inl hm.symm)))⟩
              · obtain ⟨hi, hm⟩ := by simpa using h
                exact ⟨hi.symm, Or.inr (Or.inr (Or.inr (Or.inr (Or.inl hm.symm))))⟩
              · split at h
                · simp at h
                · split at h
                  · simp at h
                  · rename_i o size2 hsize2 r i2 m2 heq2
                    injection h with hii hmm2
                    rw [← hii, ← hmm2]
                    obtain ⟨hi2, hm2⟩ := convertCells_err size2 (cellElems a) i2 m2 heq2
                    exact ⟨hi2, Or.inr (Or.inr (Or.inr (Or.inr (Or.inr hm2))))⟩
                  · simp at h

/-- C6 amended witness: the arity failure on an empty input list. -/
theorem claim_C6_amended_witness :
    "fast_assign_true:main" = "fast_assign_true:main"
    ∧ ("Wrong number of inputs." = "Wrong number of inputs."
       ∨ "Wrong number of inputs." = "Wrong number of outputs."
       ∨ "Wrong number of inputs." = "Indices must be cell array."
       ∨ "Wrong number of inputs." = "Size must be double."
       ∨ "Wrong number of inputs." = "Size must be scalar."
       ∨ "Wrong number of inputs." = "Indices must be uint64.") :=
  claim_C6_amended_error_kinds 1 [] "fast_assign_true:main" "Wrong number of inputs." rfl

/-- C7: converting an in-range index set and converting the same set with
every element duplicated yield identical call outcomes (hence identical
masks): duplicate values are idempotent. -/
theorem claim_C7_duplicates_idempotent (len : Nat) (hlen : len < 2 ^ 64)
    (s : List Nat) (hs : ∀ v ∈ s, v < len) :
    mexFunction 1 [.cell [.uint64 (dupEach s)], .double [(len : Rat)]]
      = mexFunction 1 [.cell [.uint64 s], .double [(len : Rat)]] := by
  have hds : ∀ v ∈ dupEach s, v < len := fun v hv => hs v ((mem_dupEach v s).mp hv)
  have e1 : mexFunction 1 [.cell [.uint64 (dupEach s)], .double [(len : Rat)]]
      = .ok [.cell [.logical (maskOf len (dupEach s))]] := by
    simpa using mexFunction_ok len hlen [dupEach s] (by simpa using hds)
  have e2 : mexFunction 1 [.cell [.uint64 s], .double [(len : Rat)]]
      = .ok [.cell [.logical (maskOf len s)]] := by
    simpa using mexFunction_ok len hlen [s] (by simpa using hs)
  rw [e1, e2, maskOf_dupEach]

/-- C7 witness: the set `[0, 2]` against length 3. -/
theorem claim_C7_duplicates_idempotent_witness :
    (∀ v ∈ [0, 2], v < 3) ∧
    mexFunction 1 [.cell [.uint64 (dupEach [0, 2])], .double [((3 : Nat) : Rat)]]
      = mexFunction 1 [.cell [.uint64 [0, 2]], .double [((3 : Nat) : Rat)]] :=
  ⟨by decide, claim_C7_duplicates_idempotent 3 (by norm_num) [0, 2] (by decide)⟩

/-- C8: permuting the order of the index sets in a valid batch permutes the
output masks by the same permutation (`σ`), and permuting the elements within
a single index set leaves the call outcome, hence that set's mask,
unchanged. -/
theorem claim_C8_permutation (len : Nat) (hlen : len < 2 ^ 64) (n : Nat)
    (f : Fin n → List Nat) (σ : Equiv.Perm (Fin n)) (hv : ∀ j, ∀ v ∈ f j, v < len)
    (s t : List Nat) (hst : s.Perm t) (hs : ∀ v ∈ s, v < len) :
    (∃ m1 m2 : List (List Bool),
      outMasks (mexFunction 1 [.cell ((List.ofFn f).map MxArray.uint64),
        .double [(len : Rat)]]) = some m1
      ∧ outMasks (mexFunction 1 [.cell ((List.ofFn (fun j => f (σ j))).map MxArray.uint64),
        .double [(len : Rat)]]) = some m2
      ∧ m1.length = n ∧ m2.length = n
      ∧ ∀ j : Fin n, m2.getD (j : Nat) [] = m1.getD ((σ j : Fin n) : Nat) [])
    ∧ mexFunction 1 [.cell [.uint64 s], .double [(len : Rat)]]
        = mexFunction 1 [.cell [.uint64 t], .double [(len : Rat)]] := by
  constructor
  · have hv1 : ∀ u ∈ List.ofFn f, ∀ v ∈ u, v < len := by
      intro u hu
      obtain ⟨j, rfl⟩ := (List.mem_ofFn f u).mp hu
      exact hv j
    have hv2 : ∀ u ∈ List.ofFn (fun j => f (σ j)), ∀ v ∈ u, v < len := by
      intro u hu
      obtain ⟨j, rfl⟩ := (List.mem_ofFn _ u).mp hu
      exact hv (σ j)
    refine ⟨(List.ofFn f).map (maskOf len),
      (List.ofFn (fun j => f (σ j))).map (maskOf len),
      outMasks_mexFunction_ok len hlen (List.ofFn f) hv1,
      outMasks_mexFunction_ok len hlen _ hv2, by simp, by simp, ?_⟩
    intro j
    rw [List.map_ofFn, List.map_ofFn, getD_ofFn, getD_ofFn]
    rfl
  · have ht : ∀ v ∈ t, v < len := fun v hv2 => hs v (hst.mem_iff.mpr hv2)
    have e1 : mexFunction 1 [.cell [.uint64 s], .double [(len : Rat)]]
        = .ok [.cell [.logical (maskOf len s)]] := by
      simpa using mexFunction_ok len hlen [s] (by simpa using hs)
    have e2 : mexFunction 1 [.cell [.uint64 t], .double [(len : Rat)]]
        = .ok [.cell [.logical (maskOf len t)]] := by
      simpa using mexFunction_ok len hlen [t] (by simpa using ht)
    rw [e1, e2, maskOf_perm len s t hst]

/-- C8 witness: the two-set batch `[[0],[1]]` swapped by the transposition of
`Fin 2`, and the set `[0,1]` against its reversal. -/
theorem claim_C8_permutation_witness :
    (∃ m1 m2 : List (List Bool),
      outMasks (mexFunction 1 [.cell ((List.ofFn (fun j : Fin 2 => [(j : Nat)])).map
        MxArray.uint64), .double [((2 : Nat) : Rat)]]) = some m1
      ∧ outMasks (mexFunction 1 [.cell ((List.ofFn (fun j : Fin 2 =>
          [((Equiv.swap (0 : Fin 2) 1 j : Fin 2) : Nat)])).map MxArray.uint64),
          .double [((2 : Nat) : Rat)]]) = some m2
      ∧ m1.length = 2 ∧ m2.length = 2
      ∧ ∀ j : Fin 2, m2.getD (j : Nat) []
          = m1.getD ((Equiv.swap (0 : Fin 2) 1 j : Fin 2) : Nat) [])
    ∧ mexFunction 1 [.cell [.uint64 [0, 1]], .double [((2 : Nat) : Rat)]]
        = mexFunction 1 [.cell [.uint64 [1, 0]], .double [((2 : Nat) : Rat)]] :=
  claim_C8_permutation 2 (by norm_num) 2 (fun j => [(j : Nat)])
    (Equiv.swap 0 1) (by decide) [0, 1] [1, 0] (by decide) (by decide)

/-- C9: with length 0, a batch of empty index sets (in particular one
containing an empty index set) yields an empty mask for every entry; an empty
batch with any representable length yields an empty mask batch; and the
length is still validated to be scalar even for an empty batch. -/
theorem claim_C9_empty_cases :
    (∀ batch : List (List Nat), (∀ s ∈ batch, s = []) →
      mexFunction 1 [.cell (batch.map MxArray.uint64), .double [((0 : Nat) : Rat)]]
        = .ok [.cell (batch.map (fun _ => MxArray.logical []))])
    ∧ (∀ len : Nat, len < 2 ^ 64 →
      mexFunction 1 [.cell [], .double [(len : Rat)]] = .ok [.cell []])
    ∧ (∀ vals : List Rat, vals.length ≠ 1 →
      mexFunction 1 [.cell [], .double vals]
        = .err "fast_assign_true:main" "Size must be scalar.") := by
  refine ⟨?_, ?_, ?_⟩
  · intro batch hb
    have hv : ∀ s2 ∈ batch, ∀ v ∈ s2, v < 0 := by
      intro s2 hs2 v hv2
      rw [hb s2 hs2] at hv2
      exact absurd hv2 (List.not_mem_nil v)
    rw [mexFunction_ok 0 (by norm_num) batch hv]
    have e : batch.map (fun s2 => MxArray.logical (maskOf 0 s2))
        = batch.map (fun _ => MxArray.logical []) :=
      List.map_congr_left (fun s2 _ => by simp [maskOf])
    rw [e]
  · intro len hlen
    simpa using mexFunction_ok len hlen [] (by simp)
  · intro vals h
    exact mexFunction_size_not_scalar [] vals h

/-- C9 witness: the batch `[[]]` with length 0, the empty batch with length
10, and an empty batch with a two-element length vector. -/
theorem claim_C9_empty_cases_witness :
    mexFunction 1 [.cell [.uint64 []], .double [((0 : Nat) : Rat)]]
      = .ok [.cell [.logical []]]
    ∧ mexFunction 1 [.cell [], .double [((10 : Nat) : Rat)]] = .ok [.cell []]
    ∧ mexFunction 1 [.cell [], .double [1, 2]]
      = .err "fast_assign_true:main" "Size must be scalar." :=
  ⟨claim_C9_empty_cases.1 [[]] (by simp),
    claim_C9_empty_cases.2.1 10 (by norm_num),
    claim_C9_empty_cases.2.2 [1, 2] (by decide)⟩

/-- C10: a scalar non-integer length (2.7, i.e. the rational 27/10) is
accepted without any shape error; it is truncated toward zero to 2, and every
produced mask has length 2 = floor(2.7) rather than the supplied value. -/
theorem claim_C10_fractional_length_truncated :
    mexFunction 1 [.cell [.uint64 [0], .uint64 [1]], .double [Rat.mk' 27 10]]
      = .ok [.cell [.logical [true, false], .logical [false, true]]]
    ∧ Rat.mk' 27 10 = 27 / 10
    ∧ truncTowardZero (Rat.mk' 27 10) = 2 := by
  refine ⟨rfl, ?_, rfl⟩
  rw [Rat.mk'_eq_divInt, Rat.divInt_eq_div]
  norm_num

end FastAssignTrue
